import Mathlib

/-!
Shallow embedding of the `ritik-ai-backend` chat gateway and its model
fallback service, with theorems checking the natural-language specification
against the code.

Sources embedded:
* `src/backend/ai_service.py` — class `AIService` with `chat` and
  `chat_stream`: an ordered model list, a process-wide sticky index, and
  substring-based error classification.
* `src/backend/main.py` — the FastAPI gateway: the non-streaming `/chat`
  handler, the streaming `/chat/stream` handler with its nested `generate`
  generator, and the middleware configuration.

The external Gemini provider is modelled as an oracle (a function from the
model name and prompt to an outcome).  Stateful Python code (the sticky
index) becomes explicit state passing; exceptions become an explicit error
constructor carrying the exception text, classified by the same lowercased
substring checks the source performs.  Each loop additionally returns the
trace of candidate indices / model names actually attempted, so that
"the backend was never invoked" and "no further candidate was tried" are
directly observable facts about the embedding.
-/

/-- Does `pat` occur as a contiguous block of `l`?  Helper for the Python
`"x" in s` substring test used by the source for error classification. -/
def charsContain (pat : List Char) : List Char → Bool
  | [] => pat.isEmpty
  | c :: cs => pat.isPrefixOf (c :: cs) || charsContain pat cs

/-- Substring containment on strings, mirroring the Python `"x" in s` test
used by the source for error classification. -/
def strContains (s pat : String) : Bool :=
  charsContain pat.data s.data

/-- ASCII lowercasing, mirroring Python `str.lower()` on the error text. -/
def lowerStr (s : String) : String :=
  ⟨s.data.map Char.toLower⟩

/-- Python `str.strip()`: remove whitespace from both ends.  (Defined
structurally over the character list so that it evaluates by kernel
reduction, unlike `String.trim`.) -/
def pyStrip (s : String) : String :=
  ⟨((s.data.dropWhile Char.isWhitespace).reverse.dropWhile Char.isWhitespace).reverse⟩

/-- Classification from `ai_service.py` lines 92–93 / 152–153: a
quota / rate-limit failure is an error whose lowercased text contains
"429", "quota" or "resource exhausted". -/
def isQuotaError (e : String) : Bool :=
  strContains (lowerStr e) "429" || strContains (lowerStr e) "quota" ||
    strContains (lowerStr e) "resource exhausted"

/-- Classification from `ai_service.py` lines 99 / 159: an invalid-credential
failure is an error whose lowercased text contains both "400" and "api key". -/
def isApiKeyError (e : String) : Bool :=
  strContains (lowerStr e) "400" && strContains (lowerStr e) "api key"

/-- Classification from `main.py` line 180: a content-safety / invalid-request
failure is an error whose lowercased text contains "safety", "blocked" or
"invalid argument". -/
def isClientError (e : String) : Bool :=
  strContains (lowerStr e) "safety" || strContains (lowerStr e) "blocked" ||
    strContains (lowerStr e) "invalid argument"

/-- Outcome of one non-streaming call to the external Gemini provider:
either generated text, or a raised exception carrying its message. -/
inductive GenResult where
  | ok (text : String)
  | err (msg : String)
deriving DecidableEq, Repr

/-- The persona prompt `SYSTEM_PROMPT` of `ai_service.py` lines 17–37.  The
literal text is a long persona description; no claim depends on its content,
only on where it is spliced into the full prompt, so the constant keeps just
its opening line. -/
def SYSTEM_PROMPT : String :=
  "You are the official AI Portfolio Assistant for Ritik."

/-- Rendering of one history entry, from `ai_service.py` lines 82–83:
role "user" becomes "User", anything else "Assistant". -/
def renderHistoryLine (msg : String × String) : String :=
  (if msg.1 = "user" then "User" else "Assistant") ++ ": " ++ msg.2 ++ "\n"

/-- The full prompt construction of `ai_service.py` lines 76–85 (identical in
`chat_stream`, lines 131–139).  Python `if conversation_history:` is false
both for `None` and for an empty list, so the history is a plain list here. -/
def buildFullPrompt (message : String) (history : List (String × String)) : String :=
  let base := SYSTEM_PROMPT ++ "\n\n"
  let base := if history.isEmpty then base
    else base ++ "Conversation Context:\n" ++ String.join (history.map renderHistoryLine)
  base ++ "\nUser: " ++ message ++ "\nAssistant:"

/-- The ordered candidate list of `AIService.__init__` (`ai_service.py`
lines 42–46). -/
def availableModels : List String :=
  ["gemini-1.5-flash", "gemini-1.0-pro", "gemini-1.5-pro"]

/-- `AIService` state: the ordered model list and the process-wide sticky
index `current_model_index` (`ai_service.py` lines 40–47). -/
structure AIService where
  available_models : List String
  current_model_index : Nat
deriving DecidableEq, Repr

/-- The `AIService` singleton as constructed (`ai_service.py` line 171):
the fixed model list with sticky index 0. -/
def initAIService : AIService :=
  ⟨availableModels, 0⟩

/-- Result of `AIService.chat`, instrumented with the trace of candidate
indices attempted.  `text` is the plain string return value of the Python
method (success text, hard-coded credential message, or hard-coded overload
message — all on the same channel); `finalIndex` is `current_model_index`
after the call. -/
structure ChatOutcome where
  text : String
  finalIndex : Nat
  attempts : List Nat
deriving DecidableEq, Repr

/-- Hard-coded return of `ai_service.py` line 101 on an invalid credential. -/
def apiKeyErrorMsg : String :=
  "Error: The GEMINI_API_KEY provided in the backend .env is invalid. Please check your API key."

/-- Hard-coded return of `ai_service.py` line 109 when every model failed. -/
def overloadedMsg : String :=
  "The AI is currently overloaded. Please try again in 1 minute."

/-- The loop body of `AIService.chat` (`ai_service.py` lines 64–106) over the
remaining iteration indices.  `backend model prompt` is the oracle for
`chat.send_message`; `sticky` threads `self.current_model_index`.  On a quota
error the sticky index is set to `(idx + 1) % n` (line 96) and the loop
continues; on a credential error the hard-coded message is returned (line
101); on any other error the loop continues without touching the index
(lines 103–106); falling off the loop returns the overload message
(line 109). -/
def aiChatGo (backend : String → String → GenResult) (models : List String)
    (prompt : String) (sticky : Nat) : List Nat → ChatOutcome
  | [] => ⟨overloadedMsg, sticky, []⟩
  | idx :: rest =>
    -- `idx = (start + i) % num_models` is always in range for the nonempty
    -- model list, so the `getD` default is unreachable.
    let name := models.getD idx ""
    match backend name prompt with
      | .ok t => ⟨t, sticky, [idx]⟩
      | .err e =>
        if isQuotaError e then
          let o := aiChatGo backend models prompt ((idx + 1) % models.length) rest
          ⟨o.text, o.finalIndex, idx :: o.attempts⟩
        else if isApiKeyError e then ⟨apiKeyErrorMsg, sticky, [idx]⟩
        else
          let o := aiChatGo backend models prompt sticky rest
          ⟨o.text, o.finalIndex, idx :: o.attempts⟩

/-- `AIService.chat` (`ai_service.py` lines 56–109): iterate
`for i in range(num_models)` over `idx = (start_index + i) % num_models`,
starting at the current sticky index. -/
def AIService.chat (svc : AIService) (backend : String → String → GenResult)
    (message : String) (history : List (String × String)) : ChatOutcome :=
  let n := svc.available_models.length
  let idxs := (List.range n).map (fun i => (svc.current_model_index + i) % n)
  aiChatGo backend svc.available_models (buildFullPrompt message history)
    svc.current_model_index idxs

/-- Behaviour of one streaming call to the provider: the text fragments the
iterator yielded before terminating, and `failure = some e` when iteration
(or the initial `send_message` / `generate_content`, with `chunks = []`)
raised exception `e` instead of completing cleanly. -/
structure StreamGen where
  chunks : List String
  failure : Option String
deriving DecidableEq, Repr

/-- Result of `AIService.chat_stream`, instrumented with the trace of
candidate indices attempted: the full ordered sequence of strings yielded
to the caller, and the final sticky index. -/
structure StreamChatOutcome where
  output : List String
  finalIndex : Nat
  attempts : List Nat
deriving DecidableEq, Repr

/-- Hard-coded final yield of `ai_service.py` line 168 when every model
failed in the streaming variant. -/
def streamOverloadedMsg : String :=
  "Error: The AI is currently overloaded. Please try again later."

/-- The loop body of `AIService.chat_stream` (`ai_service.py` lines 119–165).
Fragments with non-empty text are yielded as they arrive (`if chunk.text:`,
lines 145–147) — fragments yielded before a mid-stream exception have already
reached the caller, so they stay in the output.  Error classification and
sticky-index updates are as in `aiChatGo`; a credential error yields the
hard-coded message and returns (lines 159–162); any other error continues
with the next candidate (lines 164–165). -/
def aiChatStreamGo (backend : String → String → StreamGen) (models : List String)
    (prompt : String) (sticky : Nat) : List Nat → StreamChatOutcome
  | [] => ⟨[streamOverloadedMsg], sticky, []⟩
  | idx :: rest =>
    -- index arithmetic keeps `idx` in range, as in `aiChatGo`
    let name := models.getD idx ""
    let g := backend name prompt
      let emitted := g.chunks.filter (fun c => !c.isEmpty)
      match g.failure with
      | none => ⟨emitted, sticky, [idx]⟩
      | some e =>
        if isQuotaError e then
          let o := aiChatStreamGo backend models prompt ((idx + 1) % models.length) rest
          ⟨emitted ++ o.output, o.finalIndex, idx :: o.attempts⟩
        else if isApiKeyError e then ⟨emitted ++ [apiKeyErrorMsg], sticky, [idx]⟩
        else
          let o := aiChatStreamGo backend models prompt sticky rest
          ⟨emitted ++ o.output, o.finalIndex, idx :: o.attempts⟩

/-- `AIService.chat_stream` (`ai_service.py` lines 111–168): same candidate
selection as `AIService.chat`, yielding fragments instead of returning one
string. -/
def AIService.chatStream (svc : AIService) (backend : String → String → StreamGen)
    (message : String) (history : List (String × String)) : StreamChatOutcome :=
  let n := svc.available_models.length
  let idxs := (List.range n).map (fun i => (svc.current_model_index + i) % n)
  aiChatStreamGo backend svc.available_models (buildFullPrompt message history)
    svc.current_model_index idxs

/-! ## The FastAPI gateway (`main.py`) -/

/-- Body of a `/chat` or `/chat/stream` request (`main.py` lines 32–33):
only a `message` field. -/
structure ChatRequest where
  message : String
deriving DecidableEq, Repr

/-- Outcome of the non-streaming `/chat` handler: a 200 `ChatResponse`
carrying the text and the model used, or an `HTTPException` with its status
code and detail. -/
inductive HttpResult where
  | ok (response : String) (model : String)
  | error (status : Nat) (detail : String)
deriving DecidableEq, Repr

/-- The ordered candidate list of the `/chat` handler (`main.py`
lines 60–64). -/
def modelsToTry : List String :=
  ["gemini-2.5-flash", "gemini-2.5-flash-lite", "gemini-3-flash"]

/-- Python `str(last_error)` where `last_error` starts as `None`
(`main.py` lines 151 and 193). -/
def renderLastError : Option String → String
  | none => "None"
  | some e => e

/-- The fallback loop of the `/chat` handler (`main.py` lines 153–194),
instrumented with the list of models actually passed to the provider.
On success, return the 200 response with the model name (lines 170–173).
On a safety / blocked / invalid-argument error, raise 400 at once without
trying further models (lines 180–184); otherwise record the error and
continue (lines 186–188).  When the loop exhausts the list, raise 502
surfacing the last error (lines 191–194). -/
def tryModelsGo (backend : String → GenResult) :
    List String → Option String → HttpResult × List String
  | [], lastError =>
    (.error 502 ("All available Gemini models failed. Last error: " ++
      renderLastError lastError), [])
  | m :: rest, _lastError =>
    match backend m with
    | .ok t => (.ok t m, [m])
    | .err e =>
      if isClientError e then
        (.error 400 ("Content blocked or invalid request: " ++ e), [m])
      else
        let r := tryModelsGo backend rest (some e)
        (r.1, m :: r.2)

/-- The non-streaming `/chat` handler (`main.py` lines 47–194).  Validation
first (`if not request.message or not request.message.strip():`, line 53,
→ 400 "Message cannot be empty"); then the credential check (lines 142–147,
→ 500); then the fallback loop.  The `backend` oracle stands for
`model.generate_content(request.message, ...)` with the handler-local
`system_instruction`; the second component of the result is the list of
models actually invoked on the provider. -/
def mainChat (apiKey : Option String) (backend : String → GenResult)
    (req : ChatRequest) : HttpResult × List String :=
  if req.message == "" || pyStrip req.message == "" then
    (.error 400 "Message cannot be empty", [])
  else
    match apiKey with
    | none =>
      (.error 500 "Gemini API key not configured. Please set GEMINI_API_KEY environment variable.",
        [])
    | some _ => tryModelsGo backend modelsToTry none

/-- One server-sent event of the `/chat/stream` response: a text fragment
(`data: {"text": ...}`, `main.py` line 231) or the terminal error event
(`data: {"error": "All models failed"}`, line 236). -/
inductive SSEEvent where
  | text (fragment : String)
  | errorAll
deriving DecidableEq, Repr

/-- Minimal JSON string escaping as performed by `json.dumps` on the
fragment payloads. -/
def jsonEscape (s : String) : String :=
  String.join (s.data.map fun c =>
    if c = '\\' then "\\\\"
    else if c = '"' then "\\\""
    else if c = '\n' then "\\n"
    else String.singleton c)

/-- Wire format of one event (`main.py` lines 231 and 236). -/
def SSEEvent.render : SSEEvent → String
  | .text f => "data: \x7b\"text\": \"" ++ jsonEscape f ++ "\"\x7d\n\n"
  | .errorAll => "data: \x7b\"error\": \"All models failed\"\x7d\n\n"

/-- The ordered candidate list of the `/chat/stream` handler (`main.py`
lines 205–209). -/
def streamModels : List String :=
  ["gemini-2.0-flash", "gemini-2.5-flash-lite", "gemini-1.5-flash"]

/-- The names visible to the body of the nested generator `generate` inside
`chat_stream` (`main.py` lines 211–236): the module-level bindings of
`main.py` plus the locals of the enclosing `chat_stream` call.  The name
`system_instruction` is a local of the other handler `chat` (line 66) and is
NOT in this list — Python name resolution for it fails with `NameError`. -/
def generateScope : List String :=
  ["os", "FastAPI", "HTTPException", "Request", "StreamingResponse", "json",
   "CORSMiddleware", "BaseModel", "genai", "Optional", "load_dotenv",
   "current_dir", "dotenv_path", "app", "ChatRequest", "ChatResponse",
   "HealthResponse", "health_check", "chat", "chat_stream", "root",
   "request", "api_key", "models_to_try", "generate", "model_name", "model",
   "response", "chunk", "e"]

/-- Python name resolution for a free variable of the generator body:
`some ()` when the name is bound in an enclosing scope, `none` for a
`NameError`. -/
def resolveName (scope : List String) (n : String) : Option Unit :=
  if scope.contains n then some () else none

/-- The generator `generate` of the `/chat/stream` handler (`main.py` lines
211–236).  Each iteration first builds `genai.GenerativeModel(...,
system_instruction=system_instruction)` (line 216), which requires resolving
the name `system_instruction`; a `NameError` there is an `Exception`, caught
by the blanket `except` (lines 233–235), which continues with the next
model.  Only if the name resolved would the provider be invoked and
fragments yielded (lines 220–232); a mid-iteration exception after some
yields likewise falls to the blanket `except` and continues.  After the
loop, the single error event is yielded (line 236). -/
def generateGo (backend : String → String → StreamGen) (message : String) :
    List String → List SSEEvent
  | [] => [SSEEvent.errorAll]
  | m :: rest =>
    match resolveName generateScope "system_instruction" with
    | none => generateGo backend message rest
    | some _ =>
      let g := backend m message
      let evs := (g.chunks.filter (fun c => !c.isEmpty)).map SSEEvent.text
      match g.failure with
      | none => evs
      | some _ => evs ++ generateGo backend message rest

/-- Outcome of the `/chat/stream` handler: either an `HTTPException` raised
before streaming starts (missing credential, line 201), or a 200
`StreamingResponse` whose body is the event sequence. -/
inductive StreamHandlerResult where
  | httpError (status : Nat) (detail : String)
  | stream (events : List SSEEvent)
deriving DecidableEq, Repr

/-- The `/chat/stream` handler (`main.py` lines 196–238).  Note: no
validation of `request.message` is performed — the handler goes straight
from the credential check to returning the streaming response. -/
def mainChatStream (apiKey : Option String) (backend : String → String → StreamGen)
    (req : ChatRequest) : StreamHandlerResult :=
  match apiKey with
  | none => .httpError 500 "API key not configured."
  | some _ => .stream (generateGo backend req.message streamModels)

/-! ## Application composition (`main.py` lines 19–29, 42–45, 240–250) -/

/-- One installed middleware, identified by name. -/
structure Middleware where
  name : String
deriving DecidableEq, Repr

/-- The complete middleware stack of the application (`main.py` lines
23–29): a single CORS middleware, which adds response headers and rejects
or delays no request.  No rate-limiting middleware is installed. -/
def appMiddleware : List Middleware :=
  [⟨"CORSMiddleware"⟩]

/-- An inbound HTTP request as the transport layer sees it: the client
identity, the arrival time in seconds, the path, and the parsed body. -/
structure IncomingRequest where
  clientId : String
  timestamp : Nat
  path : String
  body : ChatRequest
deriving DecidableEq, Repr

/-- Outcome of dispatching one inbound request through the application. -/
inductive DispatchResult where
  | chatResult (res : HttpResult) (calls : List String)
  | streamResult (res : StreamHandlerResult)
  | notFound
deriving DecidableEq, Repr

/-- Routing of the application (`main.py` route decorators on lines 47 and
196).  The middleware stack (`appMiddleware`) passes every request through
unchanged, and no handler or middleware reads `clientId` or `timestamp`:
the code keeps no per-client state of any kind. -/
def appDispatch (apiKey : Option String) (backend : String → GenResult)
    (sbackend : String → String → StreamGen) (r : IncomingRequest) : DispatchResult :=
  if r.path = "/chat" then
    let res := mainChat apiKey backend r.body
    .chatResult res.1 res.2
  else if r.path = "/chat/stream" then
    .streamResult (mainChatStream apiKey sbackend r.body)
  else .notFound

/-- Modelled from the spec (§4.2): the cache-key normalization
"case-insensitive, whitespace-trimmed" of the message text.  The source
contains no cache at all; this definition exists only to state the cache
claim and follows the words of the spec. -/
def fingerprintNorm (s : String) : String :=
  lowerStr (pyStrip s)

/-! ## Concrete oracles used in witnesses and counterexamples -/

/-- A provider that answers every model with the same reply. -/
def okBackend : String → GenResult := fun _ => .ok "Hello!"

/-- A streaming provider whose calls complete instantly with no fragments
(never reached by the `/chat/stream` generator). -/
def idleStreamBackend : String → String → StreamGen := fun _ _ => ⟨[], none⟩

/-- A provider where the first `/chat` candidates hit quota limits and the
last fails with a content-safety block. -/
def quotaThenSafetyBackend : String → GenResult := fun m =>
  if m = "gemini-3-flash" then .err "safety block" else .err "429 quota"

/-- A provider where every `/chat` candidate hits a quota limit. -/
def allQuotaBackend : String → GenResult := fun _ => .err "429 quota"

/-- A provider for the `/chat` loop failing its first candidate with a
content-safety block. -/
def safetyFirstMainBackend : String → GenResult := fun m =>
  if m = "gemini-2.5-flash" then .err "safety violation" else .ok "hello"

/-- A provider for `AIService` failing its first candidate with a
content-safety block and answering from the second. -/
def safetyFirstAiBackend : String → String → GenResult := fun m _ =>
  if m = "gemini-1.5-flash" then .err "safety violation" else .ok "hello"

/-- A provider for `AIService` hitting a quota limit on the first candidate
and answering from the second. -/
def quotaThenOkAiBackend : String → String → GenResult := fun m _ =>
  if m = "gemini-1.5-flash" then .err "429" else .ok "pong"

/-- A streaming provider whose first candidate emits one fragment and then
fails with a quota error, while the second completes cleanly. -/
def midStreamFailBackend : String → String → StreamGen := fun m _ =>
  if m = "gemini-1.5-flash" then ⟨["Hello"], some "429 quota"⟩ else ⟨["World"], none⟩

/-- A provider failing with an invalid-credential error on every call. -/
def badKeyAiBackend : String → String → GenResult := fun _ _ =>
  .err "400 api key invalid"

/-- A streaming provider failing with an invalid-credential error before any
fragment. -/
def badKeyStreamBackend : String → String → StreamGen := fun _ _ =>
  ⟨[], some "400 api key invalid"⟩

/-! ## Helper lemmas about the fallback loops -/

/-- The trace of attempted indices follows the planned iteration order: it
is an initial segment of the index list handed to the loop. -/
theorem aiChatGo_attempts_init (b : String → String → GenResult)
    (models : List String) (p : String) :
    ∀ (idxs : List Nat) (s : Nat), (aiChatGo b models p s idxs).attempts <+: idxs := by
  intro idxs
  induction idxs with
  | nil => intro s; simp [aiChatGo]
  | cons idx rest ih =>
    intro s
    simp only [aiChatGo]
    cases b (models.getD idx "") p with
    | ok t => exact ⟨rest, rfl⟩
    | err e =>
      by_cases hq : isQuotaError e
      · obtain ⟨t, ht⟩ := ih ((idx + 1) % models.length)
        exact ⟨t, by simp [hq, ht]⟩
      · by_cases hk : isApiKeyError e
        · exact ⟨rest, by simp [hq, hk]⟩
        · obtain ⟨t, ht⟩ := ih s
          exact ⟨t, by simp [hq, hk, ht]⟩

/-- When the loop has at least one candidate index left, that index is the
first one attempted. -/
theorem aiChatGo_attempts_head (b : String → String → GenResult)
    (models : List String) (p : String) (s idx : Nat) (rest : List Nat) :
    (aiChatGo b models p s (idx :: rest)).attempts.head? = some idx := by
  simp only [aiChatGo]
  cases b (models.getD idx "") p with
  | ok t => rfl
  | err e =>
    by_cases hq : isQuotaError e
    · simp [hq]
    · by_cases hk : isApiKeyError e
      · simp [hq, hk]
      · simp [hq, hk]

/-- Unfolding `AIService.chat` on the concrete three-model configuration:
the planned iteration order is the sticky index, then the two following
indices modulo 3. -/
theorem aiChat_eq (b : String → String → GenResult) (s : Nat) (hs : s < 3)
    (msg : String) (hist : List (String × String)) :
    AIService.chat ⟨availableModels, s⟩ b msg hist =
      aiChatGo b availableModels (buildFullPrompt msg hist) s
        [s, (s + 1) % 3, (s + 2) % 3] := by
  show aiChatGo b availableModels (buildFullPrompt msg hist) s
      [(s + 0) % 3, (s + 1) % 3, (s + 2) % 3] = _
  rw [Nat.add_zero, Nat.mod_eq_of_lt hs]

/-- Streaming analogue of `aiChatGo_attempts_head`: the first remaining
candidate index is the first one attempted. -/
theorem aiChatStreamGo_attempts_head (b : String → String → StreamGen)
    (models : List String) (p : String) (s idx : Nat) (rest : List Nat) :
    (aiChatStreamGo b models p s (idx :: rest)).attempts.head? = some idx := by
  simp only [aiChatStreamGo]
  cases h : (b (models.getD idx "") p).failure with
  | none => rfl
  | some e =>
    by_cases hq : isQuotaError e
    · simp [hq]
    · by_cases hk : isApiKeyError e
      · simp [hq, hk]
      · simp [hq, hk]

/-- Unfolding `AIService.chatStream` on the concrete three-model
configuration. -/
theorem aiChatStream_eq (b : String → String → StreamGen) (s : Nat) (hs : s < 3)
    (msg : String) (hist : List (String × String)) :
    AIService.chatStream ⟨availableModels, s⟩ b msg hist =
      aiChatStreamGo b availableModels (buildFullPrompt msg hist) s
        [s, (s + 1) % 3, (s + 2) % 3] := by
  show aiChatStreamGo b availableModels (buildFullPrompt msg hist) s
      [(s + 0) % 3, (s + 1) % 3, (s + 2) % 3] = _
  rw [Nat.add_zero, Nat.mod_eq_of_lt hs]

/-- The name `system_instruction` does not resolve inside the generator of
`chat_stream`: it is bound only inside the other handler. -/
theorem resolve_system_instruction_fails :
    resolveName generateScope "system_instruction" = none := by
  decide

/-- Whatever the provider would do and whatever the candidate list, the
generator of `/chat/stream` emits exactly the single terminal error event:
every iteration dies on the unresolvable name before reaching the
provider. -/
theorem generateGo_all_error (b : String → String → StreamGen) (msg : String) :
    ∀ ms : List String, generateGo b msg ms = [SSEEvent.errorAll] := by
  intro ms
  induction ms with
  | nil => rfl
  | cons m rest ih =>
    simp only [generateGo, resolve_system_instruction_fails]
    exact ih

/-- A message that is not whitespace-only passes the validation of the
`/chat` handler. -/
theorem validation_passes (m : String) (hm : pyStrip m ≠ "") :
    (m == "" || pyStrip m == "") = false := by
  have h1 : m ≠ "" := by
    intro h
    exact hm (by rw [h]; decide)
  simp [h1, hm]

/-- The `/chat` fallback loop always invokes the provider on its first
candidate: the call list of a run over a nonempty candidate list is
nonempty. -/
theorem tryModelsGo_calls_ne_nil (b : String → GenResult) (m : String)
    (rest : List String) (lastError : Option String) :
    (tryModelsGo b (m :: rest) lastError).2 ≠ [] := by
  simp only [tryModelsGo]
  cases b m with
  | ok t => simp
  | err e =>
    by_cases hc : isClientError e
    · simp [hc]
    · simp [hc]

/-- One step of the `AIService.chat` loop: success returns the text with the
current sticky index unchanged, attempting only this candidate. -/
theorem aiChatGo_cons_ok (b : String → String → GenResult) (models : List String)
    (p : String) (s idx : Nat) (rest : List Nat) (t : String)
    (ht : b (models.getD idx "") p = .ok t) :
    aiChatGo b models p s (idx :: rest) = ⟨t, s, [idx]⟩ := by
  simp only [aiChatGo]
  rw [ht]

/-- One step of the `AIService.chat` loop: a quota failure advances the
sticky index past this candidate and continues. -/
theorem aiChatGo_cons_quota (b : String → String → GenResult) (models : List String)
    (p : String) (s idx : Nat) (rest : List Nat) (e : String)
    (ht : b (models.getD idx "") p = .err e) (hq : isQuotaError e = true) :
    aiChatGo b models p s (idx :: rest) =
      ⟨(aiChatGo b models p ((idx + 1) % models.length) rest).text,
       (aiChatGo b models p ((idx + 1) % models.length) rest).finalIndex,
       idx :: (aiChatGo b models p ((idx + 1) % models.length) rest).attempts⟩ := by
  simp only [aiChatGo]
  rw [ht]
  simp [hq]

/-- One step of the `AIService.chat` loop: an invalid-credential failure
returns the hard-coded message at once, with the sticky index unchanged. -/
theorem aiChatGo_cons_apikey (b : String → String → GenResult) (models : List String)
    (p : String) (s idx : Nat) (rest : List Nat) (e : String)
    (ht : b (models.getD idx "") p = .err e) (hq : isQuotaError e = false)
    (hk : isApiKeyError e = true) :
    aiChatGo b models p s (idx :: rest) = ⟨apiKeyErrorMsg, s, [idx]⟩ := by
  simp only [aiChatGo]
  rw [ht]
  simp [hq, hk]

/-- One step of the `AIService.chat` loop: any other failure continues with
the next candidate without touching the sticky index. -/
theorem aiChatGo_cons_other (b : String → String → GenResult) (models : List String)
    (p : String) (s idx : Nat) (rest : List Nat) (e : String)
    (ht : b (models.getD idx "") p = .err e) (hq : isQuotaError e = false)
    (hk : isApiKeyError e = false) :
    aiChatGo b models p s (idx :: rest) =
      ⟨(aiChatGo b models p s rest).text,
       (aiChatGo b models p s rest).finalIndex,
       idx :: (aiChatGo b models p s rest).attempts⟩ := by
  simp only [aiChatGo]
  rw [ht]
  simp [hq, hk]

/-- One step of the `AIService.chat_stream` loop: a clean completion ends
the stream after the filtered fragments, with the sticky index unchanged. -/
theorem aiChatStreamGo_cons_ok (b : String → String → StreamGen) (models : List String)
    (p : String) (s idx : Nat) (rest : List Nat) (cs : List String)
    (hb : b (models.getD idx "") p = ⟨cs, none⟩) :
    aiChatStreamGo b models p s (idx :: rest) =
      ⟨cs.filter (fun c => !c.isEmpty), s, [idx]⟩ := by
  simp only [aiChatStreamGo]
  rw [hb]

/-- One step of the `AIService.chat_stream` loop: a quota failure (before or
after fragments were emitted) keeps the already-emitted fragments, advances
the sticky index, and continues with the next candidate. -/
theorem aiChatStreamGo_cons_quota (b : String → String → StreamGen) (models : List String)
    (p : String) (s idx : Nat) (rest : List Nat) (cs : List String) (e : String)
    (hb : b (models.getD idx "") p = ⟨cs, some e⟩) (hq : isQuotaError e = true) :
    aiChatStreamGo b models p s (idx :: rest) =
      ⟨cs.filter (fun c => !c.isEmpty) ++
         (aiChatStreamGo b models p ((idx + 1) % models.length) rest).output,
       (aiChatStreamGo b models p ((idx + 1) % models.length) rest).finalIndex,
       idx :: (aiChatStreamGo b models p ((idx + 1) % models.length) rest).attempts⟩ := by
  simp only [aiChatStreamGo]
  rw [hb]
  simp [hq]

/-- One step of the `AIService.chat_stream` loop: an invalid-credential
failure yields the hard-coded message after any already-emitted fragments
and ends the stream. -/
theorem aiChatStreamGo_cons_apikey (b : String → String → StreamGen) (models : List String)
    (p : String) (s idx : Nat) (rest : List Nat) (cs : List String) (e : String)
    (hb : b (models.getD idx "") p = ⟨cs, some e⟩) (hq : isQuotaError e = false)
    (hk : isApiKeyError e = true) :
    aiChatStreamGo b models p s (idx :: rest) =
      ⟨cs.filter (fun c => !c.isEmpty) ++ [apiKeyErrorMsg], s, [idx]⟩ := by
  simp only [aiChatStreamGo]
  rw [hb]
  simp [hq, hk]

/-- One step of the `AIService.chat_stream` loop: any other failure keeps the
already-emitted fragments and continues with the next candidate, sticky
index unchanged. -/
theorem aiChatStreamGo_cons_other (b : String → String → StreamGen) (models : List String)
    (p : String) (s idx : Nat) (rest : List Nat) (cs : List String) (e : String)
    (hb : b (models.getD idx "") p = ⟨cs, some e⟩) (hq : isQuotaError e = false)
    (hk : isApiKeyError e = false) :
    aiChatStreamGo b models p s (idx :: rest) =
      ⟨cs.filter (fun c => !c.isEmpty) ++ (aiChatStreamGo b models p s rest).output,
       (aiChatStreamGo b models p s rest).finalIndex,
       idx :: (aiChatStreamGo b models p s rest).attempts⟩ := by
  simp only [aiChatStreamGo]
  rw [hb]
  simp [hq, hk]

/-- C1: `AIService.chat` iterates the candidate list from the current sticky
index, wrapping modulo the list length, each candidate at most once per call
(the attempted indices are an initial segment of
`[s, (s+1) % 3, (s+2) % 3]`); success at the sticky candidate returns its
text with the sticky index unchanged; a quota failure at the sticky
candidate followed by success at the next one returns that text with the
sticky index advanced to the succeeding candidate, so that a subsequent
independent call starts there. -/
theorem c1_sticky_fallback (b : String → String → GenResult) (s : Nat) (hs : s < 3)
    (msg : String) (hist : List (String × String)) :
    (AIService.chat ⟨availableModels, s⟩ b msg hist).attempts <+:
        [s, (s + 1) % 3, (s + 2) % 3] ∧
    (∀ t, b (availableModels.getD s "") (buildFullPrompt msg hist) = .ok t →
      AIService.chat ⟨availableModels, s⟩ b msg hist = ⟨t, s, [s]⟩) ∧
    (∀ e t, b (availableModels.getD s "") (buildFullPrompt msg hist) = .err e →
      isQuotaError e = true →
      b (availableModels.getD ((s + 1) % 3) "") (buildFullPrompt msg hist) = .ok t →
      AIService.chat ⟨availableModels, s⟩ b msg hist =
          ⟨t, (s + 1) % 3, [s, (s + 1) % 3]⟩ ∧
        (∀ (b2 : String → String → GenResult) (m2 : String)
            (h2 : List (String × String)),
          (AIService.chat ⟨availableModels, (s + 1) % 3⟩ b2 m2 h2).attempts.head? =
            some ((s + 1) % 3))) := by
  have hlen : availableModels.length = 3 := rfl
  refine ⟨?_, ?_, ?_⟩
  · rw [aiChat_eq b s hs msg hist]
    exact aiChatGo_attempts_init b availableModels _ _ s
  · intro t ht
    rw [aiChat_eq b s hs msg hist, aiChatGo_cons_ok _ _ _ _ _ _ _ ht]
  · intro e t he hq hok
    constructor
    · rw [aiChat_eq b s hs msg hist,
        aiChatGo_cons_quota _ _ _ _ _ _ _ he hq, hlen,
        aiChatGo_cons_ok _ _ _ _ _ _ _ hok]
    · intro b2 m2 h2
      rw [aiChat_eq b2 ((s + 1) % 3) (Nat.mod_lt _ (by norm_num)) m2 h2]
      exact aiChatGo_attempts_head b2 availableModels _ _ _ _

/-- Witness for C1 at the scenario of the claim: sticky index 0, candidate 0
fails with "429", candidate 1 answers "pong"; the call returns "pong" having
attempted exactly candidates 0 then 1, and leaves the sticky index at 1. -/
theorem c1_sticky_fallback_witness :
    (0 < 3) ∧
    AIService.chat ⟨availableModels, 0⟩ quotaThenOkAiBackend "hi" [] =
      ⟨"pong", 1, [0, 1]⟩ ∧
    (AIService.chat ⟨availableModels, 1⟩ quotaThenOkAiBackend "hi" []).attempts.head? =
      some 1 := by
  have h := (c1_sticky_fallback quotaThenOkAiBackend 0 (by decide) "hi" []).2.2
    "429" "pong" rfl (by decide) rfl
  exact ⟨by decide, h.1, h.2 quotaThenOkAiBackend "hi" []⟩

/-- C3: for every provider behaviour and every request, the `/chat/stream`
response is a 200 event stream holding no text-fragment event and exactly
one error event `data: {"error": "All models failed"}`: the generator body
cannot resolve `system_instruction` (a local of the other handler), so every
candidate iteration raises and is converted into "try next model" until the
list is exhausted. -/
theorem c3_stream_only_error_event (sb : String → String → StreamGen)
    (key : String) (req : ChatRequest) :
    resolveName generateScope "system_instruction" = none ∧
    mainChatStream (some key) sb req = .stream [SSEEvent.errorAll] ∧
    (generateGo sb req.message streamModels).map SSEEvent.render =
      ["data: \x7b\"error\": \"All models failed\"\x7d\n\n"] := by
  refine ⟨resolve_system_instruction_fails, ?_, ?_⟩
  · simp [mainChatStream, generateGo_all_error]
  · simp [generateGo_all_error, SSEEvent.render]

/-- C2 counterexample: the whitespace-only message `" "` sent to the
streaming handler is NOT rejected with an HTTP 400 `InvalidInput` error: the
handler responds 200 with an event stream (whose only event is the terminal
error event).  This refutes the claim that every chat entry point rejects
such messages with a 400. -/
theorem c2_empty_message_counterexample :
    pyStrip " " = "" ∧
    mainChatStream (some "k") idleStreamBackend ⟨" "⟩ =
      .stream [SSEEvent.errorAll] := by
  exact ⟨by decide, rfl⟩

/-- C2 amended: only the non-streaming `/chat` handler rejects an empty or
whitespace-only message with HTTP 400 and never invokes the backend (its
call list is empty); the streaming `/chat/stream` handler performs no
message validation and instead responds 200 with an event stream. -/
theorem c2_empty_message_amended (key : String) (b : String → GenResult)
    (sb : String → String → StreamGen) (m : String) (hm : pyStrip m = "") :
    mainChat (some key) b ⟨m⟩ = (.error 400 "Message cannot be empty", []) ∧
    mainChatStream (some key) sb ⟨m⟩ = .stream [SSEEvent.errorAll] := by
  constructor
  · simp [mainChat, hm]
  · simp [mainChatStream, generateGo_all_error]

/-- Witness for C2 (amended) at the whitespace-only message `" "`. -/
theorem c2_empty_message_witness :
    pyStrip " " = "" ∧
    (mainChat (some "k") okBackend ⟨" "⟩ = (.error 400 "Message cannot be empty", []) ∧
     mainChatStream (some "k") idleStreamBackend ⟨" "⟩ = .stream [SSEEvent.errorAll]) :=
  ⟨by decide, c2_empty_message_amended "k" okBackend idleStreamBackend " " (by decide)⟩

/-- A request with a non-whitespace message and a configured key reaches the
fallback loop of the `/chat` handler. -/
theorem mainChat_valid (key : String) (b : String → GenResult) (m : String)
    (hm : pyStrip m ≠ "") :
    mainChat (some key) b ⟨m⟩ = tryModelsGo b modelsToTry none := by
  simp [mainChat, validation_passes m hm]

/-- When the first `/chat` candidate answers, the handler returns 200 with
its text and name, having invoked the provider exactly once. -/
theorem mainChat_first_ok (key : String) (b : String → GenResult) (m t : String)
    (hm : pyStrip m ≠ "") (hb : b "gemini-2.5-flash" = .ok t) :
    mainChat (some key) b ⟨m⟩ = (.ok t "gemini-2.5-flash", ["gemini-2.5-flash"]) := by
  rw [mainChat_valid key b m hm]
  simp only [modelsToTry, tryModelsGo]
  rw [hb]

/-- C4 counterexample: two stateless requests whose messages have the same
case-insensitive whitespace-trimmed normalization are both processed by the
fallback loop; the second request also invokes the Generation Backend (its
call list is `["gemini-2.5-flash"]`, not `[]`), because the handler keeps no
response cache.  This refutes the claim that the second request is answered
from a cache without a second backend call. -/
theorem c4_no_cache_counterexample :
    fingerprintNorm "Who made you?" = fingerprintNorm "  who made you?  " ∧
    mainChat (some "k") okBackend ⟨"Who made you?"⟩ =
      (.ok "Hello!" "gemini-2.5-flash", ["gemini-2.5-flash"]) ∧
    mainChat (some "k") okBackend ⟨"  who made you?  "⟩ =
      (.ok "Hello!" "gemini-2.5-flash", ["gemini-2.5-flash"]) := by
  exact ⟨by decide, rfl, rfl⟩

/-- C4 amended: the gateway keeps no response cache.  Any two requests with
identically-normalized non-whitespace messages are each processed by the
fallback loop and each invokes the Generation Backend; their outputs are
byte-identical only because the provider returns the same text, and in
general every valid request produces at least one backend call. -/
theorem c4_no_cache_amended (key : String) (b : String → GenResult)
    (m1 m2 t : String) (_hn : fingerprintNorm m1 = fingerprintNorm m2)
    (h1 : pyStrip m1 ≠ "") (h2 : pyStrip m2 ≠ "")
    (hb : b "gemini-2.5-flash" = .ok t) :
    mainChat (some key) b ⟨m1⟩ = (.ok t "gemini-2.5-flash", ["gemini-2.5-flash"]) ∧
    mainChat (some key) b ⟨m2⟩ = (.ok t "gemini-2.5-flash", ["gemini-2.5-flash"]) ∧
    (mainChat (some key) b ⟨m1⟩).2.length + (mainChat (some key) b ⟨m2⟩).2.length = 2 := by
  have r1 := mainChat_first_ok key b m1 t h1 hb
  have r2 := mainChat_first_ok key b m2 t h2 hb
  refine ⟨r1, r2, ?_⟩
  rw [r1, r2]
  rfl

/-- Witness for C4 (amended) at the normalization-equal pair
`"Who made you?"` / `"  who made you?  "`. -/
theorem c4_no_cache_witness :
    fingerprintNorm "Who made you?" = fingerprintNorm "  who made you?  " ∧
    (mainChat (some "k") okBackend ⟨"Who made you?"⟩ =
        (.ok "Hello!" "gemini-2.5-flash", ["gemini-2.5-flash"]) ∧
      mainChat (some "k") okBackend ⟨"  who made you?  "⟩ =
        (.ok "Hello!" "gemini-2.5-flash", ["gemini-2.5-flash"]) ∧
      (mainChat (some "k") okBackend ⟨"Who made you?"⟩).2.length +
          (mainChat (some "k") okBackend ⟨"  who made you?  "⟩).2.length = 2) :=
  ⟨by decide,
    c4_no_cache_amended "k" okBackend "Who made you?" "  who made you?  " "Hello!"
      (by decide) (by decide) (by decide) rfl⟩

/-- C5 counterexample: two requests from the same client to the rate-limited
path `/chat`, one second apart (well within the claimed 3-second cooldown),
are both accepted and answered 200; the second is not rejected and no wait
time exists anywhere in the response.  This refutes the claim that the
second request is rejected with a positive remaining wait time. -/
theorem c5_no_rate_limit_counterexample :
    appDispatch (some "k") okBackend idleStreamBackend
        ⟨"203.0.113.7", 100, "/chat", ⟨"hello"⟩⟩ =
      .chatResult (.ok "Hello!" "gemini-2.5-flash") ["gemini-2.5-flash"] ∧
    appDispatch (some "k") okBackend idleStreamBackend
        ⟨"203.0.113.7", 101, "/chat", ⟨"hello"⟩⟩ =
      .chatResult (.ok "Hello!" "gemini-2.5-flash") ["gemini-2.5-flash"] := by
  exact ⟨rfl, rfl⟩

/-- C5 amended: the application installs no rate limiter — its only
middleware is CORS — and request handling is completely independent of the
client identity and the arrival time, so a repeat request within any window
of the previous one is processed exactly like the first and is never
rejected with a wait time. -/
theorem c5_no_rate_limit_amended (key : Option String) (b : String → GenResult)
    (sb : String → String → StreamGen) (r r' : IncomingRequest)
    (hp : r.path = r'.path) (hb : r.body = r'.body) :
    appDispatch key b sb r = appDispatch key b sb r' ∧
    appMiddleware = [⟨"CORSMiddleware"⟩] := by
  refine ⟨?_, rfl⟩
  simp only [appDispatch, hp, hb]

/-- Witness for C5 (amended): the same two requests as the counterexample
(same client, timestamps 100 and 101, same path and body) dispatch
identically. -/
theorem c5_no_rate_limit_witness :
    appDispatch (some "k") okBackend idleStreamBackend
        ⟨"203.0.113.7", 100, "/chat", ⟨"hello"⟩⟩ =
      appDispatch (some "k") okBackend idleStreamBackend
        ⟨"203.0.113.7", 101, "/chat", ⟨"hello"⟩⟩ ∧
    appMiddleware = [⟨"CORSMiddleware"⟩] :=
  c5_no_rate_limit_amended (some "k") okBackend idleStreamBackend
    ⟨"203.0.113.7", 100, "/chat", ⟨"hello"⟩⟩
    ⟨"203.0.113.7", 101, "/chat", ⟨"hello"⟩⟩ rfl rfl

/-- C9 counterexample: the 12-identical-character message passes the
gateway's only validation (the empty / whitespace check), the Generation
Backend is invoked, and its reply is returned 200.  This refutes the claim
that the message is rejected as spam before any backend call. -/
theorem c9_no_diversity_check_counterexample :
    mainChat (some "k") okBackend ⟨"aaaaaaaaaaaa"⟩ =
      (.ok "Hello!" "gemini-2.5-flash", ["gemini-2.5-flash"]) := by
  rfl

/-- C9 amended: the gateway has no character-diversity spam check.  Its only
validation rejects empty or whitespace-only messages, so the
12-identical-character message `"aaaaaaaaaaaa"` is forwarded to the
Generation Backend and answered from it; more generally every
non-whitespace message produces at least one backend call. -/
theorem c9_no_diversity_check_amended (key : String) (b : String → GenResult)
    (t : String) (hb : b "gemini-2.5-flash" = .ok t) :
    mainChat (some key) b ⟨"aaaaaaaaaaaa"⟩ =
      (.ok t "gemini-2.5-flash", ["gemini-2.5-flash"]) ∧
    (∀ m : String, pyStrip m ≠ "" → (mainChat (some key) b ⟨m⟩).2 ≠ []) := by
  constructor
  · exact mainChat_first_ok key b _ t (by decide) hb
  · intro m hm
    rw [mainChat_valid key b m hm]
    exact tryModelsGo_calls_ne_nil b _ _ _

/-- Witness for C9 (amended) with a provider answering "Hello!". -/
theorem c9_no_diversity_check_witness :
    okBackend "gemini-2.5-flash" = .ok "Hello!" ∧
    mainChat (some "k") okBackend ⟨"aaaaaaaaaaaa"⟩ =
      (.ok "Hello!" "gemini-2.5-flash", ["gemini-2.5-flash"]) :=
  ⟨rfl, (c9_no_diversity_check_amended "k" okBackend "Hello!" rfl).1⟩

/-- One step of the `/chat` fallback loop: success returns 200 at once. -/
theorem tryModelsGo_cons_ok (b : String → GenResult) (m : String)
    (rest : List String) (last : Option String) (t : String)
    (hb : b m = .ok t) :
    tryModelsGo b (m :: rest) last = (.ok t m, [m]) := by
  simp only [tryModelsGo]
  rw [hb]

/-- One step of the `/chat` fallback loop: a safety / blocked /
invalid-argument failure raises 400 at once, with no further candidate
invoked. -/
theorem tryModelsGo_cons_client (b : String → GenResult) (m : String)
    (rest : List String) (last : Option String) (e : String)
    (hb : b m = .err e) (hc : isClientError e = true) :
    tryModelsGo b (m :: rest) last =
      (.error 400 ("Content blocked or invalid request: " ++ e), [m]) := by
  simp only [tryModelsGo]
  rw [hb]
  simp [hc]

/-- One step of the `/chat` fallback loop: any other failure records the
error and continues with the next candidate. -/
theorem tryModelsGo_cons_other (b : String → GenResult) (m : String)
    (rest : List String) (last : Option String) (e : String)
    (hb : b m = .err e) (hc : isClientError e = false) :
    tryModelsGo b (m :: rest) last =
      ((tryModelsGo b rest (some e)).1, m :: (tryModelsGo b rest (some e)).2) := by
  simp only [tryModelsGo]
  rw [hb]
  simp [hc]

/-- C6 counterexample: a run in which every candidate fails — the first two
with quota errors and the last with a content-safety block — ends with
HTTP 400, not 502.  This refutes the claim that the gateway returns 502
whenever every candidate model fails. -/
theorem c6_all_failed_counterexample :
    quotaThenSafetyBackend "gemini-2.5-flash" = .err "429 quota" ∧
    quotaThenSafetyBackend "gemini-2.5-flash-lite" = .err "429 quota" ∧
    quotaThenSafetyBackend "gemini-3-flash" = .err "safety block" ∧
    mainChat (some "k") quotaThenSafetyBackend ⟨"hi"⟩ =
      (.error 400 "Content blocked or invalid request: safety block",
       ["gemini-2.5-flash", "gemini-2.5-flash-lite", "gemini-3-flash"]) := by
  exact ⟨rfl, rfl, rfl, rfl⟩

/-- C6 amended: if every candidate fails and no failure is classified as a
content-safety / invalid-argument error, the `/chat` handler fails with
HTTP 502 whose detail surfaces the last underlying error
(`All available Gemini models failed. Last error: <e>`); and a 502 occurs
only when every candidate was invoked and failed. -/
theorem c6_all_failed_amended (key : String) (b : String → GenResult) (m : String)
    (hm : pyStrip m ≠ "") (e1 e2 e3 : String)
    (h1 : b "gemini-2.5-flash" = .err e1) (hc1 : isClientError e1 = false)
    (h2 : b "gemini-2.5-flash-lite" = .err e2) (hc2 : isClientError e2 = false)
    (h3 : b "gemini-3-flash" = .err e3) (hc3 : isClientError e3 = false) :
    mainChat (some key) b ⟨m⟩ =
      (.error 502 ("All available Gemini models failed. Last error: " ++ e3),
       modelsToTry) ∧
    (∀ (b' : String → GenResult) (d : String),
      (mainChat (some key) b' ⟨m⟩).1 = .error 502 d →
      ∀ mdl ∈ modelsToTry, ∃ e, b' mdl = .err e) := by
  constructor
  · rw [mainChat_valid key b m hm]
    simp only [modelsToTry]
    rw [tryModelsGo_cons_other b _ _ _ _ h1 hc1,
      tryModelsGo_cons_other b _ _ _ _ h2 hc2,
      tryModelsGo_cons_other b _ _ _ _ h3 hc3]
    rfl
  · intro b' d hd
    rw [mainChat_valid key b' m hm] at hd
    simp only [modelsToTry] at hd
    rcases hA : b' "gemini-2.5-flash" with t1 | f1
    · rw [tryModelsGo_cons_ok b' _ _ _ _ hA] at hd
      simp at hd
    · by_cases hcA : isClientError f1
      · rw [tryModelsGo_cons_client b' _ _ _ _ hA hcA] at hd
        simp at hd
      · rw [tryModelsGo_cons_other b' _ _ _ _ hA
          (by simpa using hcA)] at hd
        rcases hB : b' "gemini-2.5-flash-lite" with t2 | f2
        · rw [tryModelsGo_cons_ok b' _ _ _ _ hB] at hd
          simp at hd
        · by_cases hcB : isClientError f2
          · rw [tryModelsGo_cons_client b' _ _ _ _ hB hcB] at hd
            simp at hd
          · rw [tryModelsGo_cons_other b' _ _ _ _ hB
              (by simpa using hcB)] at hd
            rcases hC : b' "gemini-3-flash" with t3 | f3
            · rw [tryModelsGo_cons_ok b' _ _ _ _ hC] at hd
              simp at hd
            · intro mdl hmem
              simp only [modelsToTry, List.mem_cons, List.not_mem_nil,
                or_false] at hmem
              rcases hmem with rfl | rfl | rfl
              · exact ⟨f1, hA⟩
              · exact ⟨f2, hB⟩
              · exact ⟨f3, hC⟩

/-- Witness for C6 (amended): every candidate hits a quota error, and the
handler returns 502 surfacing the last quota error. -/
theorem c6_all_failed_witness :
    mainChat (some "k") allQuotaBackend ⟨"hi"⟩ =
      (.error 502 "All available Gemini models failed. Last error: 429 quota",
       modelsToTry) :=
  have h := c6_all_failed_amended "k" allQuotaBackend "hi" (by decide)
    "429 quota" "429 quota" "429 quota" rfl (by decide) rfl (by decide) rfl (by decide)
  h.1

/-- C7 counterexample: a content-safety failure at the first `AIService`
candidate does not stop that completion path: the next candidate is tried
(attempt trace `[0, 1]`) and its reply is returned as an ordinary success,
with no HTTP 400 anywhere.  This refutes the claim that every completion
path of the gateway stops immediately with a client-facing 400. -/
theorem c7_safety_stop_counterexample :
    isClientError "safety violation" = true ∧
    initAIService.chat safetyFirstAiBackend "hi" [] = ⟨"hello", 0, [0, 1]⟩ := by
  exact ⟨by decide, rfl⟩

/-- C7 amended: only the non-streaming `/chat` gateway handler stops
immediately on a safety / blocked / invalid-argument failure, surfacing
HTTP 400 without invoking any further candidate; the `AIService` completion
paths classify such a failure as a generic retryable error and continue
with the next candidate. -/
theorem c7_safety_stop_amended :
    (∀ (key : String) (b : String → GenResult) (m e : String),
      pyStrip m ≠ "" → b "gemini-2.5-flash" = .err e → isClientError e = true →
      mainChat (some key) b ⟨m⟩ =
        (.error 400 ("Content blocked or invalid request: " ++ e),
         ["gemini-2.5-flash"])) ∧
    (∀ (b : String → String → GenResult) (s : Nat), s < 3 →
      ∀ (msg : String) (hist : List (String × String)) (e : String),
      b (availableModels.getD s "") (buildFullPrompt msg hist) = .err e →
      isQuotaError e = false → isApiKeyError e = false →
      (AIService.chat ⟨availableModels, s⟩ b msg hist).attempts.take 2 =
          [s, (s + 1) % 3] ∧
        2 ≤ (AIService.chat ⟨availableModels, s⟩ b msg hist).attempts.length) := by
  constructor
  · intro key b m e hm hb hc
    rw [mainChat_valid key b m hm]
    simp only [modelsToTry]
    rw [tryModelsGo_cons_client b _ _ _ _ hb hc]
  · intro b s hs msg hist e he hq hk
    rw [aiChat_eq b s hs msg hist]
    rw [aiChatGo_cons_other b availableModels _ s s [(s + 1) % 3, (s + 2) % 3] e he hq hk]
    have hh := aiChatGo_attempts_head b availableModels
      (buildFullPrompt msg hist) s ((s + 1) % 3) [(s + 2) % 3]
    rcases hinner : (aiChatGo b availableModels (buildFullPrompt msg hist) s
        [(s + 1) % 3, (s + 2) % 3]).attempts with _ | ⟨a, tail⟩
    · rw [hinner] at hh
      simp at hh
    · rw [hinner] at hh
      simp only [List.head?_cons, Option.some.injEq] at hh
      subst hh
      constructor
      · simp [hinner]
      · simp [hinner]

/-- Witness for C7 (amended): the `/chat` handler stops at once with 400 on
a safety failure, while `AIService.chat` continues past the same failure to
the second candidate. -/
theorem c7_safety_stop_witness :
    mainChat (some "k") safetyFirstMainBackend ⟨"hi"⟩ =
      (.error 400 "Content blocked or invalid request: safety violation",
       ["gemini-2.5-flash"]) ∧
    ((AIService.chat ⟨availableModels, 0⟩ safetyFirstAiBackend "hi" []).attempts.take 2 =
        [0, 1] ∧
      2 ≤ (AIService.chat ⟨availableModels, 0⟩ safetyFirstAiBackend "hi" []).attempts.length) := by
  constructor
  · exact c7_safety_stop_amended.1 "k" safetyFirstMainBackend "hi" "safety violation"
      (by decide) rfl (by decide)
  · exact c7_safety_stop_amended.2 safetyFirstAiBackend 0 (by decide) "hi" []
      "safety violation" rfl (by decide) (by decide)

/-- C8 counterexample: the first streaming candidate yields the fragment
"Hello" and then fails with a quota error; the chain nonetheless switches to
the next candidate (attempt trace `[0, 1]`) and appends its fragment, so the
caller receives `["Hello", "World"]`.  This refutes the claim that the chain
never switches candidates after a fragment has been emitted. -/
theorem c8_mid_stream_switch_counterexample :
    midStreamFailBackend "gemini-1.5-flash" (buildFullPrompt "hi" []) =
      ⟨["Hello"], some "429 quota"⟩ ∧
    initAIService.chatStream midStreamFailBackend "hi" [] =
      ⟨["Hello", "World"], 1, [0, 1]⟩ := by
  exact ⟨rfl, rfl⟩

/-- C8 amended: when a streaming candidate fails mid-stream — whether or not
fragments were already emitted — the chain continues with the next candidate
for every failure except the invalid-credential one: the already-emitted
fragments stay at the front of the delivered stream and the next candidate
is attempted right after the failing one. -/
theorem c8_mid_stream_switch_amended (b : String → String → StreamGen) (s : Nat)
    (hs : s < 3) (msg : String) (hist : List (String × String))
    (cs : List String) (e : String)
    (hb : b (availableModels.getD s "") (buildFullPrompt msg hist) = ⟨cs, some e⟩)
    (hk : isApiKeyError e = false) :
    (AIService.chatStream ⟨availableModels, s⟩ b msg hist).output.take
        (cs.filter (fun c => !c.isEmpty)).length = cs.filter (fun c => !c.isEmpty) ∧
    (AIService.chatStream ⟨availableModels, s⟩ b msg hist).attempts.take 2 =
      [s, (s + 1) % 3] ∧
    2 ≤ (AIService.chatStream ⟨availableModels, s⟩ b msg hist).attempts.length := by
  have hlen : availableModels.length = 3 := rfl
  rw [aiChatStream_eq b s hs msg hist]
  by_cases hq : isQuotaError e
  · rw [aiChatStreamGo_cons_quota b availableModels _ s s
      [(s + 1) % 3, (s + 2) % 3] cs e hb hq, hlen]
    have hh := aiChatStreamGo_attempts_head b availableModels
      (buildFullPrompt msg hist) ((s + 1) % 3) ((s + 1) % 3) [(s + 2) % 3]
    rcases hinner : (aiChatStreamGo b availableModels (buildFullPrompt msg hist)
        ((s + 1) % 3) [(s + 1) % 3, (s + 2) % 3]).attempts with _ | ⟨a, tail⟩
    · rw [hinner] at hh
      simp at hh
    · rw [hinner] at hh
      simp only [List.head?_cons, Option.some.injEq] at hh
      subst hh
      refine ⟨by simp [List.take_left], by simp [hinner], by simp [hinner]⟩
  · rw [aiChatStreamGo_cons_other b availableModels _ s s
      [(s + 1) % 3, (s + 2) % 3] cs e hb (by simpa using hq) hk]
    have hh := aiChatStreamGo_attempts_head b availableModels
      (buildFullPrompt msg hist) s ((s + 1) % 3) [(s + 2) % 3]
    rcases hinner : (aiChatStreamGo b availableModels (buildFullPrompt msg hist)
        s [(s + 1) % 3, (s + 2) % 3]).attempts with _ | ⟨a, tail⟩
    · rw [hinner] at hh
      simp at hh
    · rw [hinner] at hh
      simp only [List.head?_cons, Option.some.injEq] at hh
      subst hh
      refine ⟨by simp [List.take_left], by simp [hinner], by simp [hinner]⟩

/-- Witness for C8 (amended) at the counterexample scenario: fragment
"Hello" survives at the front of the stream and candidate 1 is attempted
right after candidate 0 fails mid-stream. -/
theorem c8_mid_stream_switch_witness :
    (initAIService.chatStream midStreamFailBackend "hi" []).output.take 1 = ["Hello"] ∧
    (initAIService.chatStream midStreamFailBackend "hi" []).attempts.take 2 = [0, 1] ∧
    2 ≤ (initAIService.chatStream midStreamFailBackend "hi" []).attempts.length :=
  c8_mid_stream_switch_amended midStreamFailBackend 0 (by decide) "hi" []
    ["Hello"] "429 quota" rfl (by decide)

/-- C10: on an invalid-credential failure (error text containing "400" and
"api key") `AIService.chat` stops without trying further candidates (attempt
trace `[s]`) and returns the human-readable credential message on the same
plain-string channel as a successful generation — indistinguishable from a
backend that genuinely generated that text — and `AIService.chat_stream`
yields the same message as an ordinary fragment and terminates the
stream. -/
theorem c10_apikey_in_band (s : Nat) (hs : s < 3)
    (b : String → String → GenResult) (sb : String → String → StreamGen)
    (msg : String) (hist : List (String × String)) (e e2 : String) (cs : List String)
    (hb : b (availableModels.getD s "") (buildFullPrompt msg hist) = .err e)
    (hq : isQuotaError e = false) (hk : isApiKeyError e = true)
    (hsb : sb (availableModels.getD s "") (buildFullPrompt msg hist) = ⟨cs, some e2⟩)
    (hq2 : isQuotaError e2 = false) (hk2 : isApiKeyError e2 = true) :
    AIService.chat ⟨availableModels, s⟩ b msg hist = ⟨apiKeyErrorMsg, s, [s]⟩ ∧
    AIService.chat ⟨availableModels, s⟩ b msg hist =
      AIService.chat ⟨availableModels, s⟩ (fun _ _ => .ok apiKeyErrorMsg) msg hist ∧
    AIService.chatStream ⟨availableModels, s⟩ sb msg hist =
      ⟨cs.filter (fun c => !c.isEmpty) ++ [apiKeyErrorMsg], s, [s]⟩ := by
  have h1 : AIService.chat ⟨availableModels, s⟩ b msg hist =
      ⟨apiKeyErrorMsg, s, [s]⟩ := by
    rw [aiChat_eq b s hs msg hist,
      aiChatGo_cons_apikey b availableModels _ s s [(s + 1) % 3, (s + 2) % 3] e hb hq hk]
  refine ⟨h1, ?_, ?_⟩
  · rw [h1, aiChat_eq (fun _ _ => .ok apiKeyErrorMsg) s hs msg hist,
      aiChatGo_cons_ok (fun _ _ => .ok apiKeyErrorMsg) availableModels _ s s
        [(s + 1) % 3, (s + 2) % 3] apiKeyErrorMsg rfl]
  · rw [aiChatStream_eq sb s hs msg hist,
      aiChatStreamGo_cons_apikey sb availableModels _ s s
        [(s + 1) % 3, (s + 2) % 3] cs e2 hsb hq2 hk2]

/-- Witness for C10: a provider whose every call fails with
"400 api key invalid"; starting from sticky index 0 the call returns the
credential message as its plain result having tried only candidate 0, and
the stream yields exactly that message. -/
theorem c10_apikey_in_band_witness :
    AIService.chat ⟨availableModels, 0⟩ badKeyAiBackend "hi" [] =
      ⟨apiKeyErrorMsg, 0, [0]⟩ ∧
    AIService.chat ⟨availableModels, 0⟩ badKeyAiBackend "hi" [] =
      AIService.chat ⟨availableModels, 0⟩ (fun _ _ => .ok apiKeyErrorMsg) "hi" [] ∧
    AIService.chatStream ⟨availableModels, 0⟩ badKeyStreamBackend "hi" [] =
      ⟨[apiKeyErrorMsg], 0, [0]⟩ :=
  c10_apikey_in_band 0 (by decide) badKeyAiBackend badKeyStreamBackend "hi" []
    "400 api key invalid" "400 api key invalid" [] rfl (by decide) (by decide)
    rfl (by decide) (by decide)
